import Mathlib

/-!
Verification of the account/token core of the FastAPI auth service
(`src/routes/accounts.py` and collaborators).

The route handlers are embedded shallowly: the database session becomes an
explicit state value, each handler becomes a pure function from a state and
request data to an outcome and a new state.  SQLAlchemy queries over the
token and user tables become `List.find?` / `List.filter` over the lists in
the state; timestamps become `Nat` (seconds since epoch, UTC); `commit`
failure is injected as an explicit boolean where a claim examines it.

The `database` models and the `security` package are not part of the
sources at hand; their fields and contracts are modelled from the spec
(§3 data model, §4.1 signed token codec, credential hasher as an opaque
hash/verify capability) and from how the handlers use them.
-/

namespace AccountsApp

/-- Modelled from the spec: `UserModel` (database models are not in the
sources).  Unique email, password digest, active-flag defaulting to false,
integer primary key.  The group/role reference is irrelevant to every claim
and omitted. -/
structure User where
  id : Nat
  email : String
  hashedPassword : String
  isActive : Bool
deriving Repr, DecidableEq

/-- Modelled from the spec: `ActivationTokenModel` — opaque token string,
owning account id, expiry. -/
structure ActivationToken where
  id : Nat
  userId : Nat
  token : String
  expiresAt : Nat
deriving Repr, DecidableEq

/-- Modelled from the spec: `PasswordResetTokenModel`. -/
structure PasswordResetToken where
  id : Nat
  userId : Nat
  token : String
  expiresAt : Nat
deriving Repr, DecidableEq

/-- Modelled from the spec: `RefreshTokenModel` — opaque token string,
owning account id, expiry. -/
structure RefreshToken where
  id : Nat
  userId : Nat
  token : String
  expiresAt : Nat
deriving Repr, DecidableEq

/-- The committed (durable) database state: the four tables the auth
routes touch. -/
structure DBState where
  users : List User
  activationTokens : List ActivationToken
  passwordResetTokens : List PasswordResetToken
  refreshTokens : List RefreshToken
deriving Repr, DecidableEq

/-- `services/users.py` `get_user_by_email`: first user whose email equals
the argument (`db.scalar(select(UserModel).where(UserModel.email == email))`). -/
def get_user_by_email (db : DBState) (email : String) : Option User :=
  db.users.find? (fun u => u.email == email)

/-- Outcomes of `POST /activate/` as the handler produces them.
`noneTypeError` is the unhandled `AttributeError` raised when the email
matches no user and `user.is_active` dereferences `None` (line 93). -/
inductive ActivateResult where
  | success                 -- 200 "User account activated successfully."
  | alreadyActive           -- 400 "User account is already active."
  | invalidOrExpired        -- 400 "Invalid or expired activation token."
  | noneTypeError           -- unhandled AttributeError: NoneType has no is_active
deriving Repr, DecidableEq

/-- `activate` (src/routes/accounts.py lines 84–129).  Looks up the user by
email with no None-guard, rejects already-active accounts, then looks for an
activation token matching the presented string, strictly unexpired
(`expires_at > now`) and owned by that user; on a hit it sets
`is_active = True` (update by user id), deletes that token row (delete by
token id) and commits; otherwise reports the generic invalid-or-expired
error. -/
def activate (now : Nat) (db : DBState) (email tokenStr : String) :
    ActivateResult × DBState :=
  match get_user_by_email db email with
  | none => (.noneTypeError, db)
  | some user =>
    if user.isActive then
      (.alreadyActive, db)
    else
      match db.activationTokens.find?
          (fun t => t.token == tokenStr && decide (t.expiresAt > now)
            && t.userId == user.id) with
      | some tok =>
        (.success,
          { db with
            users := db.users.map
              (fun u => if u.id == user.id then { u with isActive := true } else u)
            activationTokens :=
              db.activationTokens.filter (fun t => ¬ t.id == tok.id) })
      | none => (.invalidOrExpired, db)

/-- The per-request SQLAlchemy session during `register_user`: the durable
committed state, the rows added in the open transaction but not yet
committed, and whether a rollback was actually executed on the session. -/
structure Session where
  committed : DBState
  pendingUsers : List User
  pendingActivationTokens : List ActivationToken
  rolledBack : Bool
deriving Repr, DecidableEq

/-- The effect `await db.rollback()` has on a session: the open
transaction's pending rows are discarded (this is what line 211 of
`accounts.py` does in the password-reset handler). -/
def rollbackAwaited (s : Session) : Session :=
  { s with pendingUsers := [], pendingActivationTokens := [], rolledBack := true }

/-- Outcomes of `POST /register/`. -/
inductive RegisterResult where
  | created (userId : Nat) (email : String)  -- 201, the new user
  | conflict                                 -- 409 email already exists
  | internalError                            -- 500 "An error occurred during user creation."
deriving Repr, DecidableEq

/-- `register_user` (src/routes/accounts.py lines 40–81).  Rejects a
duplicate email with 409; otherwise adds the new inactive user and its
activation token to the transaction and commits.  `commitFails` injects a
failure of the commit (standing for any exception inside the `try` block).
On that failure the handler executes `db.rollback()` WITHOUT `await`
(line 75): the rollback coroutine is created but never run, so the session
is returned exactly as it was — pending rows still in the open transaction,
`rolledBack` still false — before the 500 is raised. -/
def register_user (db : DBState) (email pw : String) (hashPw : String → String)
    (activationTokenStr : String) (newUserId newTokId tokExp : Nat)
    (commitFails : Bool) : RegisterResult × Session :=
  if (get_user_by_email db email).isSome then
    (.conflict,
      { committed := db, pendingUsers := [], pendingActivationTokens := [],
        rolledBack := false })
  else
    let user : User :=
      { id := newUserId, email := email, hashedPassword := hashPw pw,
        isActive := false }
    let tok : ActivationToken :=
      { id := newTokId, userId := newUserId, token := activationTokenStr,
        expiresAt := tokExp }
    if commitFails then
      (.internalError,
        { committed := db, pendingUsers := [user],
          pendingActivationTokens := [tok], rolledBack := false })
    else
      (.created newUserId email,
        { committed :=
            { db with
              users := db.users ++ [user]
              activationTokens := db.activationTokens ++ [tok] },
          pendingUsers := [], pendingActivationTokens := [],
          rolledBack := false })

/-- The acknowledgment body `POST /password-reset/request/` returns. -/
def reset_request_message : String :=
  "If you are registered, you will receive an email with instructions."

/-- `reset_password_request` (src/routes/accounts.py lines 132–160).  Looks
up an ACTIVE user by email; if found, persists a fresh reset token; either
way returns the same generic acknowledgment body. -/
def reset_password_request (db : DBState) (email : String)
    (genTok : String) (newTokId tokExp : Nat) : String × DBState :=
  match db.users.find? (fun u => u.email == email && u.isActive) with
  | some user =>
    (reset_request_message,
      { db with
        passwordResetTokens := db.passwordResetTokens ++
          [{ id := newTokId, userId := user.id, token := genTok,
             expiresAt := tokExp }] })
  | none => (reset_request_message, db)

/-- Outcomes of `POST /reset-password/complete/`. -/
inductive ResetPasswordResult where
  | success              -- "Password reset successfully."
  | invalidEmailOrToken  -- 400 "Invalid email or token."
deriving Repr, DecidableEq

/-- `reset_password` (src/routes/accounts.py lines 163–220).  Looks up the
user by email, then the reset token by (owner, exact token string).  If
found and unexpired (`expires_at >= now`): update the password digest and
delete that one token row, commit, report success.  Otherwise: delete ALL
reset tokens whose owner is that user (`where user == user`; with no user
found this matches nothing), commit, and report the generic 400.  Storage
failures (the `except SQLAlchemyError` branch) are not injected here: the
claims about this handler concern the successful-storage paths. -/
def reset_password (now : Nat) (db : DBState) (email tokenStr newPw : String)
    (hashPw : String → String) : ResetPasswordResult × DBState :=
  match get_user_by_email db email with
  | none => (.invalidEmailOrToken, db)
  | some user =>
    match db.passwordResetTokens.find?
        (fun t => t.userId == user.id && t.token == tokenStr) with
    | some tok =>
      if tok.expiresAt ≥ now then
        (.success,
          { db with
            users := db.users.map
              (fun u => if u.id == user.id
                then { u with hashedPassword := hashPw newPw } else u)
            passwordResetTokens :=
              db.passwordResetTokens.filter (fun t => ¬ t.id == tok.id) })
      else
        (.invalidEmailOrToken,
          { db with
            passwordResetTokens :=
              db.passwordResetTokens.filter (fun t => ¬ t.userId == user.id) })
    | none =>
      (.invalidEmailOrToken,
        { db with
          passwordResetTokens :=
            db.passwordResetTokens.filter (fun t => ¬ t.userId == user.id) })

/-- Outcomes of `POST /login/`. -/
inductive LoginResult where
  | success (accessToken refreshTokenStr : String)  -- 201 token pair
  | invalidCredentials                              -- 401 "Invalid email or password."
  | notActivated                                    -- 403 "User account is not activated."
  | internalError                                   -- 500 (SQLAlchemyError caught)
deriving Repr, DecidableEq

/-- `login` (src/routes/accounts.py lines 223–274).  Checks, in order:
user exists, password verifies, account is active — the first two both map
to the same 401, the third to 403.  Then mints the refresh token string,
persists the refresh-token row and commits; only after the commit is the
access token minted and returned.  `commitFails` injects a commit failure:
the `except SQLAlchemyError` branch maps it to a 500 and nothing is
committed.  `verifyPw pw digest` is the opaque credential-hasher capability
(`user.verify_password`); `mkRefreshToken`/`mkAccessToken` are the signed
token codec keyed by the user id claim. -/
def login (db : DBState) (email pw : String)
    (verifyPw : String → String → Bool)
    (mkRefreshToken mkAccessToken : Nat → String)
    (newTokId refreshExp : Nat) (commitFails : Bool) : LoginResult × DBState :=
  match get_user_by_email db email with
  | none => (.invalidCredentials, db)
  | some user =>
    if ¬ verifyPw pw user.hashedPassword then
      (.invalidCredentials, db)
    else if ¬ user.isActive then
      (.notActivated, db)
    else
      let refreshTokenStr := mkRefreshToken user.id
      if commitFails then
        (.internalError, db)
      else
        (.success (mkAccessToken user.id) refreshTokenStr,
          { db with
            refreshTokens := db.refreshTokens ++
              [{ id := newTokId, userId := user.id, token := refreshTokenStr,
                 expiresAt := refreshExp }] })

/-- Modelled from the spec: result of the signed token codec's
`decode_refresh_token` (security/token_manager.py is not in the sources):
claims on success, with expiry (`TokenExpiredError`) distinguished from
malformed/signature-mismatch (`JWTError`). -/
inductive JwtDecodeResult where
  | ok (userId : Nat)
  | expired
  | malformed
deriving Repr, DecidableEq

/-- Outcomes of `POST /refresh/`. -/
inductive RefreshResult where
  | success (accessToken : String)  -- fresh access token
  | tokenExpired                    -- 400 "Token has expired."
  | refreshNotFound                 -- 401 "Refresh token not found."
  | userNotFound                    -- 404 "User not found."
deriving Repr, DecidableEq

/-- `refresh_access_token` (src/routes/accounts.py lines 277–316).  Decode
failures (expired OR malformed) both map to the 400 "Token has expired."
response.  Then the exact token string must match a persisted, non-expired
(`expires_at >= now`) refresh-token row; then the decoded subject must be an
existing user matching the row's owner.  Only then is an access token
minted.  The handler performs no writes. -/
def refresh_access_token (now : Nat) (db : DBState) (tokenStr : String)
    (decodeRefresh : String → JwtDecodeResult)
    (mkAccessToken : Nat → String) : RefreshResult :=
  match decodeRefresh tokenStr with
  | .expired => .tokenExpired
  | .malformed => .tokenExpired
  | .ok uid =>
    match db.refreshTokens.find?
        (fun t => t.token == tokenStr && decide (t.expiresAt ≥ now)) with
    | none => .refreshNotFound
    | some tok =>
      match db.users.find? (fun u => u.id == uid) with
      | none => .userNotFound
      | some user =>
        if tok.userId == user.id then .success (mkAccessToken user.id)
        else .userNotFound

/-! Concrete instances used by counterexamples and witnesses. -/

/-- A small database: user 1 inactive with a pending activation token,
user 2 active with two outstanding password-reset tokens. -/
def sampleDB : DBState :=
  { users :=
      [{ id := 1, email := "a@x.com", hashedPassword := "h-pw", isActive := false },
       { id := 2, email := "b@x.com", hashedPassword := "h-pw2", isActive := true }]
    activationTokens :=
      [{ id := 1, userId := 1, token := "act-tok", expiresAt := 100 }]
    passwordResetTokens :=
      [{ id := 1, userId := 2, token := "rst-tok", expiresAt := 100 },
       { id := 2, userId := 2, token := "rst-tok2", expiresAt := 100 }]
    refreshTokens := [] }

/-- A concrete credential hasher: `hash pw = "h-" ++ pw`. -/
def sampleHash (pw : String) : String := "h-" ++ pw

/-- The matching verifier: a digest verifies iff it equals the hash. -/
def sampleVerify (pw digest : String) : Bool := digest == sampleHash pw

/-- A concrete refresh-token mint keyed by user id. -/
def sampleMkRefresh (uid : Nat) : String := "rt-" ++ toString uid

/-- A concrete access-token mint keyed by user id. -/
def sampleMkAccess (uid : Nat) : String := "at-" ++ toString uid

/-- A concrete refresh-token decoder: only `"rt-1"` carries a valid
signature, with subject user 1. -/
def sampleDecode (s : String) : JwtDecodeResult :=
  if s == "rt-1" then .ok 1 else .malformed

/-- C9: an `activate` call whose email matches no account reaches the
unguarded `user.is_active` dereference on `None` (line 93) and fails with
an unhandled error, not the generic invalid-or-expired outcome. -/
theorem C9_activate_none_dereference (now : Nat) (db : DBState)
    (email tok : String) (h : get_user_by_email db email = none) :
    activate now db email tok = (.noneTypeError, db) := by
  unfold activate
  rw [h]

theorem C9_witness :
    get_user_by_email sampleDB "zz@x.com" = none ∧
    activate 10 sampleDB "zz@x.com" "act-tok" = (.noneTypeError, sampleDB) :=
  ⟨by decide, C9_activate_none_dereference 10 sampleDB "zz@x.com" "act-tok" (by decide)⟩

/-- C7: any two `reset_password_request` calls — in particular one with an
existing active account's email and one with any other email — return the
identical response body. -/
theorem C7_reset_request_uniform_response (db₁ db₂ : DBState)
    (e₁ e₂ g₁ g₂ : String) (i₁ i₂ x₁ x₂ : Nat) :
    (reset_password_request db₁ e₁ g₁ i₁ x₁).1 =
      (reset_password_request db₂ e₂ g₂ i₂ x₂).1 := by
  unfold reset_password_request
  split <;> split <;> rfl

/-- C3: when the refresh token's signature decodes successfully but no
non-expired persisted refresh-token row carries that exact string, the
handler answers `refreshNotFound` (401) and mints no access token. -/
theorem C3_refresh_revoked_record (now : Nat) (db : DBState)
    (tokenStr : String) (decodeRefresh : String → JwtDecodeResult)
    (mkAccessToken : Nat → String) (uid : Nat)
    (hdec : decodeRefresh tokenStr = .ok uid)
    (hrec : ∀ r ∈ db.refreshTokens, r.token = tokenStr → r.expiresAt < now) :
    refresh_access_token now db tokenStr decodeRefresh mkAccessToken =
        .refreshNotFound ∧
      ∀ a, refresh_access_token now db tokenStr decodeRefresh mkAccessToken ≠
        .success a := by
  have hfind : db.refreshTokens.find?
      (fun t => t.token == tokenStr && decide (t.expiresAt ≥ now)) = none := by
    rw [List.find?_eq_none]
    intro r hr
    simp only [Bool.and_eq_true, beq_iff_eq, decide_eq_true_eq, not_and]
    intro ht
    exact Nat.not_le.mpr (hrec r hr ht)
  unfold refresh_access_token
  rw [hdec, hfind]
  exact ⟨rfl, fun a h => RefreshResult.noConfusion h⟩

theorem C3_witness :
    sampleDecode "rt-1" = .ok 1 ∧
    refresh_access_token 10 sampleDB "rt-1" sampleDecode sampleMkAccess =
      .refreshNotFound :=
  ⟨by decide,
    (C3_refresh_revoked_record 10 sampleDB "rt-1" sampleDecode sampleMkAccess 1
      (by decide) (by intro r hr; simp [sampleDB] at hr)).1⟩

/-- C4: at the failing input — a fresh registration whose commit raises —
the handler reports the generic 500, but the session's transaction is NOT
rolled back: `db.rollback()` on line 75 lacks `await`, so the rollback
coroutine never executes and the pending account and activation-token rows
are still sitting in the open transaction (an actually-awaited rollback
would have changed the session). -/
theorem C4_register_rollback_never_executed :
    (register_user sampleDB "c@x.com" "pw3" sampleHash "act-3" 3 3 100
        true).1 = .internalError ∧
    (register_user sampleDB "c@x.com" "pw3" sampleHash "act-3" 3 3 100
        true).2.rolledBack = false ∧
    (register_user sampleDB "c@x.com" "pw3" sampleHash "act-3" 3 3 100
        true).2.pendingUsers ≠ [] ∧
    rollbackAwaited (register_user sampleDB "c@x.com" "pw3" sampleHash "act-3"
        3 3 100 true).2 ≠
      (register_user sampleDB "c@x.com" "pw3" sampleHash "act-3" 3 3 100
        true).2 := by
  refine ⟨rfl, rfl, ?_, ?_⟩ <;> decide

/-- C2: login is atomic around refresh-token persistence.  If the commit of
the refresh-token row fails, the handler returns the 500 failure, the
durable state is unchanged, and no access token is ever issued; conversely,
whenever a token pair IS returned, the refresh-token row carrying exactly
the returned refresh string is in the committed state. -/
theorem C2_login_refresh_durability (db : DBState) (email pw : String)
    (v : String → String → Bool) (mr ma : Nat → String)
    (tid rexp : Nat) :
    ((login db email pw v mr ma tid rexp true).2 = db ∧
      ∀ atk rtk, (login db email pw v mr ma tid rexp true).1 ≠
        .success atk rtk) ∧
    (∀ cf atk rtk,
      (login db email pw v mr ma tid rexp cf).1 = .success atk rtk →
      ∃ r ∈ (login db email pw v mr ma tid rexp cf).2.refreshTokens,
        r.token = rtk) := by
  constructor
  · unfold login
    split
    · exact ⟨rfl, fun _ _ h => LoginResult.noConfusion h⟩
    · split
      · exact ⟨rfl, fun _ _ h => LoginResult.noConfusion h⟩
      · split
        · exact ⟨rfl, fun _ _ h => LoginResult.noConfusion h⟩
        · exact ⟨rfl, fun _ _ h => LoginResult.noConfusion h⟩
  · intro cf atk rtk hs
    unfold login at hs ⊢
    split at hs
    · exact absurd hs (fun h => LoginResult.noConfusion h)
    · split at hs
      · exact absurd hs (fun h => LoginResult.noConfusion h)
      · split at hs
        · exact absurd hs (fun h => LoginResult.noConfusion h)
        · split at hs
          · exact absurd hs (fun h => LoginResult.noConfusion h)
          · rename_i user heq hv ha hcf
            injection hs with h1 h2
            refine ⟨⟨tid, user.id, mr user.id, rexp⟩, ?_, h2⟩
            simp_all [List.mem_append]

theorem C2_witness :
    (login sampleDB "b@x.com" "pw2" sampleVerify sampleMkRefresh sampleMkAccess
        7 999 true).2 = sampleDB ∧
    ∃ r ∈ (login sampleDB "b@x.com" "pw2" sampleVerify sampleMkRefresh
        sampleMkAccess 7 999 false).2.refreshTokens, r.token = "rt-2" :=
  ⟨(C2_login_refresh_durability sampleDB "b@x.com" "pw2" sampleVerify
      sampleMkRefresh sampleMkAccess 7 999).1.1,
   (C2_login_refresh_durability sampleDB "b@x.com" "pw2" sampleVerify
      sampleMkRefresh sampleMkAccess 7 999).2 false "at-2" "rt-2" (by decide)⟩

/-- C5 counterexample: the claim quantifies over EVERY password, but the
handler verifies the password BEFORE checking the active flag, so an
inactive account presented with a wrong password receives
`invalidCredentials` (401), not `notActivated`. -/
theorem C5_counterexample :
    get_user_by_email sampleDB "a@x.com" =
      some { id := 1, email := "a@x.com", hashedPassword := "h-pw",
             isActive := false } ∧
    (login sampleDB "a@x.com" "wrong" sampleVerify sampleMkRefresh
        sampleMkAccess 7 999 false).1 = .invalidCredentials := by
  constructor <;> decide

/-- C5 amended: for an inactive account and a password that VERIFIES
against the account's digest, login yields `notActivated`, never
`invalidCredentials`. -/
theorem C5_inactive_login_not_activated (db : DBState) (email pw : String)
    (v : String → String → Bool) (mr ma : Nat → String)
    (tid rexp : Nat) (cf : Bool) (u : User)
    (hu : get_user_by_email db email = some u)
    (hv : v pw u.hashedPassword = true)
    (ha : u.isActive = false) :
    (login db email pw v mr ma tid rexp cf).1 = .notActivated := by
  unfold login
  rw [hu]
  simp [hv, ha]

theorem C5_witness :
    get_user_by_email sampleDB "a@x.com" =
      some { id := 1, email := "a@x.com", hashedPassword := "h-pw",
             isActive := false } ∧
    (login sampleDB "a@x.com" "pw" sampleVerify sampleMkRefresh sampleMkAccess
        7 999 false).1 = .notActivated :=
  ⟨by decide,
   C5_inactive_login_not_activated sampleDB "a@x.com" "pw" sampleVerify
     sampleMkRefresh sampleMkAccess 7 999 false
     { id := 1, email := "a@x.com", hashedPassword := "h-pw", isActive := false }
     (by decide) (by decide) (by decide)⟩

/-- C6: when the named account exists but the presented reset token is
not found for it or is expired, the handler deletes ALL reset tokens owned
by that account — the committed reset-token table is exactly the old one
with every row of that owner filtered out — and reports the generic
invalid-email-or-token failure. -/
theorem C6_failed_reset_purges_all (now : Nat) (db : DBState)
    (email tokenStr newPw : String) (hashPw : String → String) (u : User)
    (hu : get_user_by_email db email = some u)
    (hbad : ∀ t ∈ db.passwordResetTokens,
      t.userId = u.id → t.token = tokenStr → t.expiresAt < now) :
    (reset_password now db email tokenStr newPw hashPw).1 =
        .invalidEmailOrToken ∧
    (reset_password now db email tokenStr newPw hashPw).2.passwordResetTokens =
      db.passwordResetTokens.filter (fun t => ¬ t.userId == u.id) := by
  unfold reset_password
  simp only [hu]
  cases hfind : db.passwordResetTokens.find?
      (fun t => t.userId == u.id && t.token == tokenStr) with
  | none =>
    simp only [hfind]
    exact ⟨trivial, trivial⟩
  | some tok =>
    have hmem := List.mem_of_find?_eq_some hfind
    have hpred := List.find?_some hfind
    simp only [Bool.and_eq_true, beq_iff_eq] at hpred
    have hexp : tok.expiresAt < now := hbad tok hmem hpred.1 hpred.2
    simp only [hfind]
    rw [if_neg (Nat.not_le.mpr hexp)]
    exact ⟨rfl, rfl⟩

theorem C6_witness :
    get_user_by_email sampleDB "b@x.com" =
      some { id := 2, email := "b@x.com", hashedPassword := "h-pw2",
             isActive := true } ∧
    (reset_password 10 sampleDB "b@x.com" "no-such-token" "new" sampleHash).1 =
      .invalidEmailOrToken ∧
    (reset_password 10 sampleDB "b@x.com" "no-such-token" "new"
        sampleHash).2.passwordResetTokens = [] := by
  have h := C6_failed_reset_purges_all 10 sampleDB "b@x.com" "no-such-token"
    "new" sampleHash
    { id := 2, email := "b@x.com", hashedPassword := "h-pw2", isActive := true }
    (by decide) (by decide)
  exact ⟨by decide, h.1, by rw [h.2]; decide⟩

/-- C10: a successful password-reset completion removes exactly the one
presented token row (every other row — in particular the same account's
other reset tokens — survives), and a reset request only appends a new row,
preserving every existing one. -/
theorem C10_reset_frame (now : Nat) (db : DBState)
    (email tokenStr newPw : String) (hashPw : String → String) (u : User)
    (tok : PasswordResetToken)
    (hu : get_user_by_email db email = some u)
    (hfind : db.passwordResetTokens.find?
      (fun t => t.userId == u.id && t.token == tokenStr) = some tok)
    (hexp : tok.expiresAt ≥ now) :
    ((reset_password now db email tokenStr newPw hashPw).1 = .success ∧
      (reset_password now db email tokenStr newPw
          hashPw).2.passwordResetTokens =
        db.passwordResetTokens.filter (fun t => ¬ t.id == tok.id) ∧
      ∀ t ∈ db.passwordResetTokens, t.id ≠ tok.id →
        t ∈ (reset_password now db email tokenStr newPw
          hashPw).2.passwordResetTokens) ∧
    (∀ gen tid texp, ∀ t ∈ db.passwordResetTokens,
      t ∈ (reset_password_request db email gen tid texp).2.passwordResetTokens) := by
  constructor
  · unfold reset_password
    simp only [hu, hfind]
    rw [if_pos hexp]
    refine ⟨rfl, rfl, ?_⟩
    intro t ht hne
    simp [List.mem_filter, ht, hne]
  · intro gen tid texp t ht
    unfold reset_password_request
    split <;> simp [List.mem_append, ht]

theorem C10_witness :
    ((reset_password 10 sampleDB "b@x.com" "rst-tok" "new" sampleHash).1 =
        .success ∧
      { id := 2, userId := 2, token := "rst-tok2", expiresAt := 100 } ∈
        (reset_password 10 sampleDB "b@x.com" "rst-tok" "new"
          sampleHash).2.passwordResetTokens) ∧
    { id := 1, userId := 2, token := "rst-tok", expiresAt := 100 } ∈
      (reset_password_request sampleDB "b@x.com" "gen" 9
        200).2.passwordResetTokens := by
  have h := C10_reset_frame 10 sampleDB "b@x.com" "rst-tok" "new" sampleHash
    { id := 2, email := "b@x.com", hashedPassword := "h-pw2", isActive := true }
    { id := 1, userId := 2, token := "rst-tok", expiresAt := 100 }
    (by decide) (by decide) (by decide)
  refine ⟨⟨h.1.1, ?_⟩, ?_⟩
  · exact h.1.2.2 { id := 2, userId := 2, token := "rst-tok2", expiresAt := 100 }
      (by decide) (by decide)
  · exact h.2 "gen" 9 200
      { id := 1, userId := 2, token := "rst-tok", expiresAt := 100 } (by decide)

/-- `List.find?` by email commutes with mapping an email-preserving
function over the user table. -/
theorem find_email_map (l : List User) (e : String) (f : User → User)
    (hf : ∀ u, (f u).email = u.email) :
    (l.map f).find? (fun u => u.email == e) =
      (l.find? (fun u => u.email == e)).map f := by
  induction l with
  | nil => rfl
  | cons a t ih =>
    cases h : a.email == e <;>
      simp [List.find?_cons, hf a, h, ih]

/-- When the account looked up by email is already active, `activate`
answers `alreadyActive` whatever the presented token. -/
theorem activate_already_active (now : Nat) (db : DBState)
    (email tokStr : String) (u : User)
    (hu : get_user_by_email db email = some u) (ha : u.isActive = true) :
    (activate now db email tokStr).1 = .alreadyActive := by
  unfold activate
  simp only [hu]
  rw [ha]
  rfl

/-- Characterization of a successful activation: the account was found
inactive, some valid token row was found, and the new state is exactly the
old one with that account flipped active and that token row deleted. -/
theorem activate_success_state (now : Nat) (db : DBState)
    (email tokStr : String)
    (h : (activate now db email tokStr).1 = .success) :
    ∃ (u : User) (tok : ActivationToken),
      get_user_by_email db email = some u ∧ u.isActive = false ∧
      (activate now db email tokStr).2 =
        { db with
          users := db.users.map
            (fun v => if v.id == u.id then { v with isActive := true } else v)
          activationTokens :=
            db.activationTokens.filter (fun t => ¬ t.id == tok.id) } := by
  unfold activate at h ⊢
  cases hu : get_user_by_email db email with
  | none =>
    rw [hu] at h
    exact ActivateResult.noConfusion h
  | some user =>
    simp only [hu] at h
    cases hact : user.isActive with
    | true =>
      rw [hact] at h
      exact ActivateResult.noConfusion h
    | false =>
      rw [hact] at h
      cases hfind : db.activationTokens.find?
          (fun t => t.token == tokStr && decide (t.expiresAt > now)
            && t.userId == user.id) with
      | none =>
        rw [hfind] at h
        exact ActivateResult.noConfusion h
      | some tokRec =>
        refine ⟨user, tokRec, rfl, hact, ?_⟩
        simp [hact, hfind]

/-- C1 amended: with a correct, unexpired token, `activate` succeeds
exactly once — but a later call presenting that same token for the same
account yields the `alreadyActive` outcome (400 "User account is already
active."), not the generic `invalidOrExpired` outcome; it is never a
success. -/
theorem C1_second_activate_already_active (now now2 : Nat) (db : DBState)
    (email tokStr : String)
    (h : (activate now db email tokStr).1 = .success) :
    (activate now2 (activate now db email tokStr).2 email tokStr).1 =
      .alreadyActive := by
  obtain ⟨u, tokRec, hu, hact, hstate⟩ :=
    activate_success_state now db email tokStr h
  apply activate_already_active now2 _ email tokStr { u with isActive := true }
  · rw [hstate]
    show (db.users.map
        (fun v => if v.id == u.id then { v with isActive := true } else v)).find?
        (fun v => v.email == email) = some { u with isActive := true }
    rw [find_email_map _ _ _
      (fun v => by cases hid : v.id == u.id <;> simp [hid])]
    unfold get_user_by_email at hu
    rw [hu]
    simp
  · rfl

/-- C1 counterexample: on a concrete database the first activation with
the valid token succeeds, and the second call presenting the very same
token yields `alreadyActive`, not the `invalidOrExpired` outcome the claim
requires. -/
theorem C1_counterexample :
    (activate 10 sampleDB "a@x.com" "act-tok").1 = .success ∧
    (activate 10 (activate 10 sampleDB "a@x.com" "act-tok").2 "a@x.com"
        "act-tok").1 = .alreadyActive ∧
    (activate 10 (activate 10 sampleDB "a@x.com" "act-tok").2 "a@x.com"
        "act-tok").1 ≠ .invalidOrExpired := by
  refine ⟨?_, ?_, ?_⟩ <;> decide

theorem C1_witness :
    (activate 10 sampleDB "a@x.com" "act-tok").1 = .success ∧
    (activate 11 (activate 10 sampleDB "a@x.com" "act-tok").2 "a@x.com"
        "act-tok").1 = .alreadyActive :=
  ⟨by decide,
   C1_second_activate_already_active 10 11 sampleDB "a@x.com" "act-tok"
     (by decide)⟩

/-- One execution of any exposed operation, as a relation on the durable
database state.  For `register_user` the durable state is the session's
committed part; `refresh_access_token` performs no writes, so it
contributes the identity step. -/
inductive Step : DBState → DBState → Prop where
  | registerStep (db : DBState) (email pw : String)
      (hashPw : String → String) (tokStr : String) (uid tid texp : Nat)
      (cf : Bool) :
      Step db (register_user db email pw hashPw tokStr uid tid texp
        cf).2.committed
  | activateStep (now : Nat) (db : DBState) (email tok : String) :
      Step db (activate now db email tok).2
  | loginStep (db : DBState) (email pw : String)
      (v : String → String → Bool) (mr ma : Nat → String) (tid rexp : Nat)
      (cf : Bool) :
      Step db (login db email pw v mr ma tid rexp cf).2
  | resetRequestStep (db : DBState) (email gen : String) (tid texp : Nat) :
      Step db (reset_password_request db email gen tid texp).2
  | resetCompleteStep (now : Nat) (db : DBState) (email tok pw : String)
      (hashPw : String → String) :
      Step db (reset_password now db email tok pw hashPw).2
  | refreshStep (db : DBState) : Step db db

/-- Every single operation preserves each stored account (same id, same
email) and never lowers its active-flag. -/
theorem step_active_monotone {db db' : DBState} (h : Step db db') :
    ∀ u ∈ db.users, ∃ u' ∈ db'.users,
      u'.id = u.id ∧ u'.email = u.email ∧
      (u.isActive = true → u'.isActive = true) := by
  intro u hu
  cases h with
  | registerStep db email pw hashPw tokStr uid tid texp cf =>
    unfold register_user
    split
    · exact ⟨u, hu, rfl, rfl, id⟩
    · split
      · exact ⟨u, hu, rfl, rfl, id⟩
      · exact ⟨u, List.mem_append_left _ hu, rfl, rfl, id⟩
  | activateStep now db email tok =>
    unfold activate
    split
    · exact ⟨u, hu, rfl, rfl, id⟩
    · split
      · exact ⟨u, hu, rfl, rfl, id⟩
      · split
        · rename_i x user heq hcond y tokRec hfind
          refine ⟨_, List.mem_map_of_mem _ hu, ?_⟩
          cases hid : u.id == user.id <;> simp [hid]
        · exact ⟨u, hu, rfl, rfl, id⟩
  | loginStep db email pw v mr ma tid rexp cf =>
    unfold login
    repeat' split
    all_goals exact ⟨u, hu, rfl, rfl, id⟩
  | resetRequestStep db email gen tid texp =>
    unfold reset_password_request
    split
    · exact ⟨u, hu, rfl, rfl, id⟩
    · exact ⟨u, hu, rfl, rfl, id⟩
  | resetCompleteStep now db email tok pw hashPw =>
    unfold reset_password
    split
    · exact ⟨u, hu, rfl, rfl, id⟩
    · split
      · split
        · rename_i x user heq y tokRec hfind hge
          refine ⟨_, List.mem_map_of_mem _ hu, ?_⟩
          cases hid : u.id == user.id <;> simp [hid]
        · exact ⟨u, hu, rfl, rfl, id⟩
      · exact ⟨u, hu, rfl, rfl, id⟩
  | refreshStep db =>
    exact ⟨u, hu, rfl, rfl, id⟩

/-- C8: (a) across any sequence of exposed operations every stored account
persists with its id and email, and its active-flag never drops from true
to false — a boolean that never drops transitions at most once, false→true;
(b) `login` and `reset_password_request` never touch the user table;
(c) `reset_password` preserves every account's id, email and active-flag
exactly (it only rewrites the password digest); (d) `register_user` only
ever adds accounts whose active-flag starts false — so the sole flip
false→true happens inside `activate`. -/
theorem C8_active_flag_monotone :
    (∀ db db', Relation.ReflTransGen Step db db' →
      ∀ u ∈ db.users, ∃ u' ∈ db'.users,
        u'.id = u.id ∧ u'.email = u.email ∧
        (u.isActive = true → u'.isActive = true)) ∧
    (∀ db email pw v mr ma tid rexp cf,
      (login db email pw v mr ma tid rexp cf).2.users = db.users) ∧
    (∀ db email gen tid texp,
      (reset_password_request db email gen tid texp).2.users = db.users) ∧
    (∀ now db email tok pw hashPw,
      ∀ u' ∈ (reset_password now db email tok pw hashPw).2.users,
        ∃ u ∈ db.users, u'.id = u.id ∧ u'.email = u.email ∧
          u'.isActive = u.isActive) ∧
    (∀ db email pw hashPw tokStr uid tid texp cf,
      ∀ u' ∈ (register_user db email pw hashPw tokStr uid tid texp
          cf).2.committed.users,
        u' ∈ db.users ∨ u'.isActive = false) := by
  refine ⟨?_, ?_, ?_, ?_, ?_⟩
  · intro db db' h
    induction h with
    | refl => exact fun u hu => ⟨u, hu, rfl, rfl, id⟩
    | tail hab hbc ih =>
      intro u hu
      obtain ⟨v, hv, hid, hem, hact⟩ := ih u hu
      obtain ⟨w, hw, hid2, hem2, hact2⟩ := step_active_monotone hbc v hv
      exact ⟨w, hw, hid2.trans hid, hem2.trans hem, fun ha => hact2 (hact ha)⟩
  · intro db email pw v mr ma tid rexp cf
    unfold login
    repeat' split
    all_goals rfl
  · intro db email gen tid texp
    unfold reset_password_request
    split <;> rfl
  · intro now db email tok pw hashPw u' hu'
    unfold reset_password at hu'
    split at hu'
    · exact ⟨u', hu', rfl, rfl, rfl⟩
    · split at hu'
      · split at hu'
        · rename_i x user heq y tokRec hfind hge
          obtain ⟨v, hv, hveq⟩ := List.mem_map.mp hu'
          refine ⟨v, hv, ?_⟩
          cases hid : v.id == user.id <;> rw [← hveq] <;> simp [hid]
        · exact ⟨u', hu', rfl, rfl, rfl⟩
      · exact ⟨u', hu', rfl, rfl, rfl⟩
  · intro db email pw hashPw tokStr uid tid texp cf u' hu'
    unfold register_user at hu'
    split at hu'
    · exact Or.inl hu'
    · split at hu'
      · exact Or.inl hu'
      · rcases List.mem_append.mp hu' with h | h
        · exact Or.inl h
        · right
          simp only [List.mem_singleton] at h
          rw [h]

theorem C8_witness :
    ∃ u' ∈ (activate 10 sampleDB "a@x.com" "act-tok").2.users,
      u'.id = 1 ∧ u'.email = "a@x.com" ∧
      ((false : Bool) = true → u'.isActive = true) :=
  C8_active_flag_monotone.1 sampleDB
    (activate 10 sampleDB "a@x.com" "act-tok").2
    (Relation.ReflTransGen.single
      (Step.activateStep 10 sampleDB "a@x.com" "act-tok"))
    { id := 1, email := "a@x.com", hashedPassword := "h-pw", isActive := false }
    (by decide)

end AccountsApp
